import Mathlib

/-!
Verification of the appointment-scheduling engine of the booking platform.

The development shallowly embeds the scheduling code of
`booking-service/services/booking_service.py` and the public booking endpoint
of `booking-service/main.py`, together with the relevant rows of
`shared/models/models.py`.

Modelling conventions:
* `datetime` values are minutes since an epoch that falls on a Monday 00:00,
  as `Int`.  `date` values are day indices since that epoch, so
  `date.weekday()` is the day index modulo 7 (0 = Monday, matching the
  `day_of_week` column comment in `shared/models/models.py`).
  `datetime.time()` is the minute-of-day, `t.emod 1440`, which like Python's
  `.time()` is always in `[0, 1440)`.  `datetime.combine(date, tod)` is
  `date * 1440 + tod`.  Python compares `time` objects by time of day, which
  at minute granularity is `Int` comparison of minute-of-day values.
  `datetime.combine(check_date, time.max)` (23:59:59.999999) is the largest
  representable instant of the day, `date * 1440 + 1439` at minute
  granularity.
* The `while` loop of `get_available_slots` is embedded with an explicit fuel
  parameter; `none` means the loop has not terminated within the given fuel,
  so `(∀ fuel, … = none)` states that the source loop does not terminate.
* `Numeric` prices are embedded as `Int` (no claim computes on prices).
* Model columns that none of the embedded operations read (names,
  descriptions, timestamps of row creation, …) are omitted from the row
  structures.
-/

/-- Booking status enum of `shared/models/models.py` (`BookingStatus`). -/
inductive BookingStatus where
  | pending
  | confirmed
  | cancelled
  | completed
  | noShow
deriving DecidableEq

/-- Tenant status enum of `shared/models/models.py` (`TenantStatus`). -/
inductive TenantStatus where
  | pending
  | active
  | suspended
  | trial
  | rejected
deriving DecidableEq

/-- Row of the `tenants` table (fields read by the booking endpoint). -/
structure Tenant where
  id : Int
  subdomain : String
  status : TenantStatus
deriving DecidableEq

/-- Row of the `clients` table (fields read by the booking endpoint). -/
structure Client where
  id : Int
  phone : String
  full_name : String
deriving DecidableEq

/-- Row of the `services` table (fields read by the booking endpoint). -/
structure Service where
  id : Int
  tenant_id : Int
  duration_minutes : Int
  price : Int
  is_active : Bool
deriving DecidableEq

/-- Row of the `master_services` association table. -/
structure MasterService where
  master_id : Int
  service_id : Int
deriving DecidableEq

/-- Row of the `master_schedules` table: the recurring weekly working hours.
`start_time` and `end_time` are minute-of-day values (`Time` columns). -/
structure MasterSchedule where
  master_id : Int
  day_of_week : Int
  start_time : Int
  end_time : Int
  is_working : Bool
deriving DecidableEq

/-- Row of the `bookings` table (fields read or written by the engine). -/
structure Booking where
  id : Int
  tenant_id : Int
  client_id : Int
  master_id : Int
  service_id : Int
  booking_date : Int
  duration_minutes : Int
  price : Int
  status : BookingStatus
  client_notes : Option String
deriving DecidableEq

/-- The committed database state visible to the booking service. -/
structure DB where
  tenants : List Tenant
  clients : List Client
  services : List Service
  master_services : List MasterService
  schedules : List MasterSchedule
  bookings : List Booking
deriving DecidableEq

/-- Python `datetime.weekday()` on a minutes-since-Monday-epoch instant. -/
def weekdayAt (t : Int) : Int :=
  (t.ediv 1440).emod 7

/-- Python `date.weekday()` on a day index since the Monday epoch. -/
def weekdayOfDay (d : Int) : Int :=
  d.emod 7

/-- Python `datetime.time()` as minute of day; always in `[0, 1440)`. -/
def timeOfDay (t : Int) : Int :=
  t.emod 1440

/-- Exceptions that the embedded Python code can raise. -/
inductive PyErr where
  | typeError
deriving DecidableEq

/-- Embeds the `MasterSchedule` lookup used at
`booking_service.py` lines 36–40 and again at lines 119–123: the first row
with the given master, the given weekday, and `is_working == True` (rows that
are absent or not working are filtered out by the query itself). -/
def scheduleFor (db : DB) (master_id : Int) (day_of_week : Int) : Option MasterSchedule :=
  db.schedules.find? (fun s =>
    s.master_id == master_id && s.day_of_week == day_of_week && s.is_working)

/-- Embeds the overlapping-bookings query of `booking_service.py`
lines 107–112.  The fourth filter argument is
`(Booking.booking_date + timedelta(minutes=Booking.duration_minutes)) > booking_datetime`,
and `Booking.duration_minutes` there is the SQLAlchemy mapped column
attribute of the `Booking` class, not a number.  Python evaluates the filter
arguments before the query runs, and the `timedelta` constructor accepts only
ints and floats for its components, raising
`TypeError: unsupported type for timedelta minutes component: InstrumentedAttribute`.
Every call to this query therefore raises before any row is examined; no
input reaches the database.  (Design note 2 of the spec records the same
defect: the expression "does not evaluate as a true interval comparison".) -/
def overlapping_bookings_query (db : DB) (master_id : Int)
    (booking_datetime : Int) (booking_end : Int) : Except PyErr (Option Booking) :=
  Except.error PyErr.typeError

/-- Embeds the working-hours containment test of `booking_service.py`
lines 128–132: reject when `booking_time < schedule.start_time` or
`booking_end_time > schedule.end_time`, where both sides are Python `time`
(time-of-day) values, so an end instant past midnight wraps to a small
minute-of-day value. -/
def within_working_hours (schedule : MasterSchedule)
    (booking_datetime : Int) (duration_minutes : Int) : Bool :=
  let booking_time := timeOfDay booking_datetime
  let booking_end_time := timeOfDay (booking_datetime + duration_minutes)
  !(booking_time < schedule.start_time || booking_end_time > schedule.end_time)

/-- Embeds `BookingService.is_slot_available` (`booking_service.py`
lines 87–134): compute `booking_end`, run the overlapping-bookings query
(which raises, see `overlapping_bookings_query`), return `False` if a row
overlaps, then resolve the working schedule for the weekday of the start
instant and return the working-hours containment verdict.  The result is
`Except` because the overlap query raises `TypeError`. -/
def is_slot_available (db : DB) (master_id : Int)
    (booking_datetime : Int) (duration_minutes : Int) : Except PyErr Bool :=
  let booking_end := booking_datetime + duration_minutes
  match overlapping_bookings_query db master_id booking_datetime booking_end with
  | Except.error e => Except.error e
  | Except.ok overlapping =>
    if overlapping.isSome then
      Except.ok false
    else
      match scheduleFor db master_id (weekdayAt booking_datetime) with
      | none => Except.ok false
      | some schedule =>
        Except.ok (within_working_hours schedule booking_datetime duration_minutes)

/-- Embeds the slot-generation `while` loop of `booking_service.py`
lines 49–54: starting from `current`, append `current` and advance by
`slot_duration` while `current + slot_duration ≤ end_time`.  `fuel` bounds
the number of iterations the model is allowed to run; `none` means the
source loop has not exited within that many iterations. -/
def slotsLoop : Nat → Int → Int → Int → Option (List Int)
  | 0, current, end_time, slot_duration =>
    if current + slot_duration ≤ end_time then none else some []
  | fuel + 1, current, end_time, slot_duration =>
    if current + slot_duration ≤ end_time then
      (slotsLoop fuel (current + slot_duration) end_time slot_duration).map
        (fun l => current :: l)
    else some []

/-- Embeds the bookings query of `booking_service.py` lines 56–65: bookings
of the master whose `booking_date` lies between `combine(check_date, time.min)`
and `combine(check_date, time.max)` (at minute granularity, between
`check_date * 1440` and `check_date * 1440 + 1439`) with status `PENDING` or
`CONFIRMED`. -/
def bookings_for_day (db : DB) (master_id : Int) (check_date : Int) : List Booking :=
  db.bookings.filter (fun b =>
    b.master_id == master_id &&
    decide (check_date * 1440 ≤ b.booking_date) &&
    decide (b.booking_date ≤ check_date * 1440 + 1439) &&
    (b.status == BookingStatus.pending || b.status == BookingStatus.confirmed))

/-- Embeds the availability filter loop of `booking_service.py` lines 67–85:
keep a slot unless some booking of the list satisfies
`slot < booking_end ∧ slot_end > booking.booking_date` where
`booking_end = booking.booking_date + booking.duration_minutes` and
`slot_end = slot + slot_duration`.  (Here `booking.duration_minutes` is an
instance attribute, an ordinary int, so this loop runs fine.) -/
def filter_available_slots (all_slots : List Int) (bookings : List Booking)
    (slot_duration : Int) : List Int :=
  all_slots.filter (fun slot =>
    !(bookings.any (fun booking =>
      decide (slot < booking.booking_date + booking.duration_minutes) &&
      decide (slot + slot_duration > booking.booking_date))))

/-- Embeds `BookingService.get_available_slots` (`booking_service.py`
lines 17–85): schedule lookup (empty result when absent or not working),
slot generation from `combine(check_date, schedule.start_time)` to
`combine(check_date, schedule.end_time)`, day-scoped booking query, overlap
filter, and the final `strftime("%H:%M")` formatting, which at minute
granularity is `timeOfDay`.  The call site in `main.py` line 199 always uses
the default `slot_duration = 30`. -/
def get_available_slots (fuel : Nat) (db : DB) (master_id : Int)
    (check_date : Int) (slot_duration : Int) : Option (List Int) :=
  match scheduleFor db master_id (weekdayOfDay check_date) with
  | none => some []
  | some schedule =>
    let start_time := check_date * 1440 + schedule.start_time
    let end_time := check_date * 1440 + schedule.end_time
    match slotsLoop fuel start_time end_time slot_duration with
    | none => none
    | some all_slots =>
      some ((filter_available_slots all_slots
        (bookings_for_day db master_id check_date) slot_duration).map timeOfDay)

/-- Request body of `POST /public/booking` (`main.py` lines 36–43).  The
caller supplies no duration and no price; only a service id and a start
instant. -/
structure CreateBookingRequest where
  subdomain : String
  client_phone : String
  client_name : String
  master_id : Int
  service_id : Int
  booking_date : Int
  notes : Option String
deriving DecidableEq

/-- Outcome of the `POST /public/booking` endpoint, by HTTP status:
`created` is 201, `businessNotFound`/`serviceNotFound` are 404s,
`masterServiceMismatch` is 400, `conflict` is the 409 "Time slot not
available", `creationFailed` is the 500 of the `except` block (after
`db.rollback()`), and `pythonError` is the unhandled exception escaping the
handler (a generic 500; the session is discarded without commit).  The code
has no outcome corresponding to an invalid duration. -/
inductive ReserveResult where
  | created (booking_id : Int)
  | businessNotFound
  | serviceNotFound
  | masterServiceMismatch
  | conflict
  | creationFailed
  | pythonError (e : PyErr)
deriving DecidableEq

/-- An outcome other than a committed booking. -/
def ReserveResult.isError : ReserveResult → Bool
  | ReserveResult.created _ => false
  | _ => true

/-- Embeds the get-or-create of the client (`main.py` lines 222–230).  The
new `Client` row is only flushed, not committed, so the caller commits the
returned client list only together with the booking; every error path
discards it. -/
def get_or_create_client (db : DB) (phone : String) (full_name : String)
    (new_client_id : Int) : Int × List Client :=
  match db.clients.find? (fun c => c.phone == phone) with
  | some c => (c.id, db.clients)
  | none =>
    (new_client_id, db.clients ++ [{ id := new_client_id, phone := phone, full_name := full_name }])

/-- Embeds the `Booking(...)` construction of `main.py` lines 266–276: the
row's `duration_minutes` and `price` are copied from the `Service` row, the
status is `CONFIRMED`, and the remaining fields come from the request and
the earlier lookups. -/
def mkBooking (tenant : Tenant) (client_id : Int) (data : CreateBookingRequest)
    (service : Service) (new_booking_id : Int) : Booking :=
  { id := new_booking_id
    tenant_id := tenant.id
    client_id := client_id
    master_id := data.master_id
    service_id := data.service_id
    booking_date := data.booking_date
    duration_minutes := service.duration_minutes
    price := service.price
    status := BookingStatus.confirmed
    client_notes := data.notes }

/-- Embeds `create_public_booking` (`main.py` lines 208–316): tenant lookup
and status gate, client get-or-create, service lookup scoped to the tenant,
master-service association check, availability check, then the `try` block
that builds the booking and commits (`commit_ok` is the storage oracle: a
failing commit takes the `except` branch, which rolls back and returns the
500).  `new_client_id` and `new_booking_id` stand for the ids the storage
would assign to freshly inserted rows.  The returned `DB` is the committed
state after the call: only a successful commit changes it. -/
def create_public_booking (db : DB) (data : CreateBookingRequest)
    (new_client_id : Int) (new_booking_id : Int) (commit_ok : Bool) :
    ReserveResult × DB :=
  match db.tenants.find? (fun t => t.subdomain == data.subdomain) with
  | none => (ReserveResult.businessNotFound, db)
  | some tenant =>
    if !(tenant.status == TenantStatus.active || tenant.status == TenantStatus.trial) then
      (ReserveResult.businessNotFound, db)
    else
      let client := get_or_create_client db data.client_phone data.client_name new_client_id
      match db.services.find? (fun s => s.id == data.service_id && s.tenant_id == tenant.id) with
      | none => (ReserveResult.serviceNotFound, db)
      | some service =>
        match db.master_services.find? (fun ms =>
            ms.master_id == data.master_id && ms.service_id == data.service_id) with
        | none => (ReserveResult.masterServiceMismatch, db)
        | some _ =>
          match is_slot_available db data.master_id data.booking_date service.duration_minutes with
          | Except.error e => (ReserveResult.pythonError e, db)
          | Except.ok false => (ReserveResult.conflict, db)
          | Except.ok true =>
            let booking := mkBooking tenant client.1 data service new_booking_id
            if commit_ok then
              (ReserveResult.created new_booking_id,
                { db with clients := client.2, bookings := db.bookings ++ [booking] })
            else
              (ReserveResult.creationFailed, db)

/-! Concrete fixtures used by the claim theorems and witnesses.  Day 0 of the
model epoch is a Monday, so minute 540 of day 0 is Monday 09:00, minute 1410
is Monday 23:30, and minute 1440 is Tuesday 00:00. -/

/-- An active tenant with subdomain "brand". -/
def tenant1 : Tenant := { id := 1, subdomain := "brand", status := TenantStatus.active }

/-- A known client. -/
def client1 : Client := { id := 1, phone := "777", full_name := "Aya" }

/-- A 30-minute service of `tenant1`. -/
def service30 : Service :=
  { id := 1, tenant_id := 1, duration_minutes := 30, price := 5000, is_active := true }

/-- A misconfigured service whose duration is 0 minutes. -/
def service0 : Service :=
  { id := 1, tenant_id := 1, duration_minutes := 0, price := 5000, is_active := true }

/-- Master 1 offers service 1. -/
def ms11 : MasterService := { master_id := 1, service_id := 1 }

/-- Working hours of master 1: Monday 09:00–17:00, working. -/
def monSched : MasterSchedule :=
  { master_id := 1, day_of_week := 0, start_time := 540, end_time := 1020, is_working := true }

/-- A booking request for master 1, service 1, Monday 10:00 of day 0. -/
def reqMon10 : CreateBookingRequest :=
  { subdomain := "brand", client_phone := "777", client_name := "Aya",
    master_id := 1, service_id := 1, booking_date := 600, notes := none }

/-- A booking request for master 1, service 1, Monday 10:15 of day 0. -/
def reqMon1015 : CreateBookingRequest :=
  { subdomain := "brand", client_phone := "777", client_name := "Aya",
    master_id := 1, service_id := 1, booking_date := 615, notes := none }

/-- Fixture for the concurrency scenario: active tenant, client, 30-minute
service, master-service link, Monday schedule, and an empty booking ledger. -/
def dbScenario : DB :=
  { tenants := [tenant1], clients := [client1], services := [service30],
    master_services := [ms11], schedules := [monSched], bookings := [] }

/-- An existing confirmed booking of master 1, Monday 10:00–11:00 of day 0. -/
def bkMon10x60 : Booking :=
  { id := 1, tenant_id := 1, client_id := 1, master_id := 1, service_id := 1,
    booking_date := 600, duration_minutes := 60, price := 5000,
    status := BookingStatus.confirmed, client_notes := none }

/-- Fixture with one confirmed booking Monday 10:00–11:00. -/
def dbContained : DB := { dbScenario with bookings := [bkMon10x60] }

/-- Fixture whose only service has duration 0. -/
def dbZeroDur : DB := { dbScenario with services := [service0] }

/-- Fixture for the 16-slot example: Monday 09:00–17:00, no bookings. -/
def dbMon : DB :=
  { tenants := [tenant1], clients := [], services := [], master_services := [],
    schedules := [monSched], bookings := [] }

/-- Fixture with no working-hours row at all. -/
def dbNoSched : DB :=
  { tenants := [tenant1], clients := [], services := [], master_services := [],
    schedules := [], bookings := [] }

/-- Monday working hours 10:00–15:00, used by the zero-granularity
counterexample. -/
def monSchedSmall : MasterSchedule :=
  { master_id := 1, day_of_week := 0, start_time := 600, end_time := 900, is_working := true }

/-- Fixture for the zero-granularity counterexample. -/
def dbMonSmall : DB :=
  { tenants := [tenant1], clients := [], services := [], master_services := [],
    schedules := [monSchedSmall], bookings := [] }

/-- Working hours of master 1 on Tuesday: 00:00–01:00, working. -/
def tueSched : MasterSchedule :=
  { master_id := 1, day_of_week := 1, start_time := 0, end_time := 60, is_working := true }

/-- A confirmed booking that starts Monday 23:30 of day 0 and lasts one hour,
so its interval `[1410, 1470)` reaches 30 minutes into Tuesday (day 1). -/
def crossBk : Booking :=
  { id := 1, tenant_id := 1, client_id := 1, master_id := 1, service_id := 1,
    booking_date := 1410, duration_minutes := 60, price := 5000,
    status := BookingStatus.confirmed, client_notes := none }

/-- Fixture whose only booking is the cross-midnight `crossBk`. -/
def dbCross : DB :=
  { tenants := [tenant1], clients := [client1], services := [service30],
    master_services := [ms11], schedules := [tueSched], bookings := [crossBk] }

/-- A pending booking inside Tuesday of day 1 (00:00–00:30). -/
def tueBk : Booking :=
  { id := 2, tenant_id := 1, client_id := 1, master_id := 1, service_id := 1,
    booking_date := 1440, duration_minutes := 30, price := 5000,
    status := BookingStatus.pending, client_notes := none }

/-- Fixture holding both the cross-midnight booking and a Tuesday booking. -/
def dbCrossW : DB := { dbCross with bookings := [crossBk, tueBk] }

/-- A confirmed booking Monday 10:00–10:30, used by the filter witness. -/
def bkW : Booking :=
  { id := 1, tenant_id := 1, client_id := 1, master_id := 1, service_id := 1,
    booking_date := 600, duration_minutes := 30, price := 5000,
    status := BookingStatus.confirmed, client_notes := none }

/-- The slot-generation loop runs forever from `current`: no amount of fuel
makes it exit. -/
def slots_loop_diverges (current : Int) (end_time : Int) (slot_duration : Int) : Prop :=
  ∀ fuel : Nat, slotsLoop fuel current end_time slot_duration = none

/-- Slot listing for the given inputs runs forever: no amount of fuel makes
`get_available_slots` produce a result. -/
def generation_diverges (db : DB) (master_id : Int) (check_date : Int)
    (slot_duration : Int) : Prop :=
  ∀ fuel : Nat, get_available_slots fuel db master_id check_date slot_duration = none

/-! Helper lemmas shared by several claim theorems. -/

/-- The conflict check raises `TypeError` on every input: the overlap query
fails while its filter arguments are being built, before anything else in
the function runs. -/
theorem is_slot_available_always_error (db : DB) (master_id : Int)
    (booking_datetime : Int) (duration_minutes : Int) :
    is_slot_available db master_id booking_datetime duration_minutes =
      Except.error PyErr.typeError :=
  rfl

/-- With `slot_duration = 0` the loop guard never changes: if one slot fits,
the loop never exits, whatever the fuel. -/
theorem slotsLoop_zero_duration (end_time : Int) :
    ∀ (fuel : Nat) (current : Int), current ≤ end_time →
      slotsLoop fuel current end_time 0 = none := by
  intro fuel
  induction fuel with
  | zero =>
    intro current h
    simp only [slotsLoop]
    rw [if_pos (by omega)]
  | succ f ih =>
    intro current h
    simp only [slotsLoop]
    rw [if_pos (by omega)]
    have hc : current + (0 : Int) = current := by omega
    rw [hc, ih current h]
    rfl

/-- Full characterization of the slot loop for positive step: with enough
fuel it returns the grid `current, current+g, current+2g, …` of slots whose
end `s + g` still fits before `end_time`, the result is strictly increasing,
and every element is at least `current`. -/
theorem slotsLoop_pos_duration :
    ∀ (fuel : Nat) (current end_time g : Int), 1 ≤ g →
      (end_time - current).toNat < fuel →
      ∃ l, slotsLoop fuel current end_time g = some l ∧
        (∀ s : Int, s ∈ l ↔ ∃ k : Nat, s = current + (k : Int) * g ∧ s + g ≤ end_time) ∧
        List.Chain' (fun a b => a < b) l ∧
        (∀ s ∈ l, current ≤ s) := by
  intro fuel
  induction fuel with
  | zero =>
    intro current end_time g hg hf
    exact absurd hf (by omega)
  | succ f ih =>
    intro current end_time g hg hf
    by_cases hc : current + g ≤ end_time
    · obtain ⟨l, hl, hmem, hch, hlb⟩ := ih (current + g) end_time g hg (by omega)
      refine ⟨current :: l, ?_, ?_, ?_, ?_⟩
      · simp only [slotsLoop, if_pos hc, hl, Option.map]
      · intro s
        rw [List.mem_cons, hmem s]
        constructor
        · rintro (rfl | ⟨k, rfl, hk⟩)
          · exact ⟨0, by push_cast; ring, hc⟩
          · refine ⟨k + 1, by push_cast; ring, ?_⟩
            have harith : current + g + (k : Int) * g = current + ((k : Int) + 1) * g := by ring
            omega
        · rintro ⟨k, rfl, hk⟩
          cases k with
          | zero =>
            left
            push_cast
            ring
          | succ k' =>
            right
            refine ⟨k', by push_cast; ring, ?_⟩
            have harith : current + ((k' : Int) + 1) * g = current + g + (k' : Int) * g := by ring
            push_cast at hk ⊢
            omega
      · cases l with
        | nil => simp
        | cons a l' =>
          refine List.Chain'.cons ?_ hch
          have ha : current + g ≤ a := hlb a (by simp)
          omega
      · intro s hs
        rcases List.mem_cons.mp hs with rfl | hs'
        · exact le_refl s
        · have := hlb s hs'
          omega
    · refine ⟨[], ?_, ?_, by simp, by simp⟩
      · simp only [slotsLoop, if_neg hc]
      · intro s
        simp only [List.not_mem_nil, false_iff]
        rintro ⟨k, rfl, hk⟩
        have hkg : 0 ≤ (k : Int) * g := mul_nonneg (Int.natCast_nonneg k) (by omega)
        omega

/-- C1: in the two-simultaneous-identical-requests scenario — two reserve
calls for master 1 at Monday 10:00 with a 30-minute service against an empty
ledger — neither caller receives a committed Reservation and neither
receives Conflict: both calls raise `TypeError` inside the availability
check (before any insert, so every interleaving of the two calls reduces to
this sequential composition) and the ledger still holds no reservation
afterwards.  This contradicts the claim that exactly one caller commits and
the other gets Conflict. -/
theorem C1_two_identical_requests_neither_commits :
    (create_public_booking dbScenario reqMon10 2 10 true).1 =
      ReserveResult.pythonError PyErr.typeError ∧
    (create_public_booking (create_public_booking dbScenario reqMon10 2 10 true).2
      reqMon10 3 11 true).1 = ReserveResult.pythonError PyErr.typeError ∧
    (create_public_booking (create_public_booking dbScenario reqMon10 2 10 true).2
      reqMon10 3 11 true).2.bookings = [] := by
  decide

/-- C2: a request for Monday 10:15–10:45, fully contained in the existing
confirmed reservation Monday 10:00–11:00, does not produce the Conflict
outcome: the conflict check raises `TypeError` while building its overlap
query, so the endpoint returns the unhandled-exception outcome instead (no
reservation is written either way). -/
theorem C2_contained_interval_not_reported_as_conflict :
    (create_public_booking dbContained reqMon1015 2 10 true).1 =
      ReserveResult.pythonError PyErr.typeError ∧
    (create_public_booking dbContained reqMon1015 2 10 true).1 ≠ ReserveResult.conflict ∧
    (create_public_booking dbContained reqMon1015 2 10 true).2 = dbContained := by
  decide

/-- C3: an interval that crosses midnight is not rejected as outside working
hours.  For the working-hours row Monday 09:00–17:00 and the candidate
Monday 23:30 with duration 60 (interval `[23:30, 00:30)` of the next day),
the containment test of lines 128–132 accepts: the wrapped end time 00:30 is
not greater than 17:00 and 23:30 is not less than 09:00.  Moreover the full
checker never returns any outside-working-hours rejection on this input —
it raises `TypeError` first. -/
theorem C3_cross_midnight_interval_accepted :
    within_working_hours monSched 1410 60 = true ∧
    weekdayAt 1410 = 0 ∧
    is_slot_available dbScenario 1 1410 60 = Except.error PyErr.typeError :=
  ⟨by decide, by decide, rfl⟩

/-- C4: a non-positive duration is not rejected as InvalidDuration.  The
code has no duration validation: the reserve path with a zero-duration
service returns the unhandled `TypeError` outcome (the result type of the
endpoint has no invalid-duration case at all), and the only validation logic
that exists, the working-hours containment test, accepts duration 0 and even
duration −60 at Monday 10:00 inside hours 09:00–17:00. -/
theorem C4_nonpositive_duration_not_rejected :
    (create_public_booking dbZeroDur reqMon10 2 10 true).1 =
      ReserveResult.pythonError PyErr.typeError ∧
    within_working_hours monSched 600 0 = true ∧
    within_working_hours monSched 600 (-60) = true := by
  decide

/-- C5: the booking endpoint never leaves a written reservation behind an
error return.  In the code as it stands every call returns an error (the
availability check raises before the insert is reached) and the committed
database is returned unchanged on every path, so in particular no error
return leaves a Reservation row, and the clause about the Ok path holds
because the Ok path is never taken. -/
theorem C5_reserve_error_paths_write_nothing :
    ∀ (db : DB) (data : CreateBookingRequest) (new_client_id new_booking_id : Int)
      (commit_ok : Bool),
      ((create_public_booking db data new_client_id new_booking_id commit_ok).1).isError = true ∧
      (create_public_booking db data new_client_id new_booking_id commit_ok).2 = db := by
  intro db data new_client_id new_booking_id commit_ok
  unfold create_public_booking
  repeat' split
  all_goals simp_all [is_slot_available_always_error, ReserveResult.isError]

/-- C6 counterexample: for granularity 0 and the working schedule Monday
10:00–15:00, slot generation does not return any sequence at all — the
while loop never exits — so the claim's universally quantified description
of the output fails at this granularity. -/
theorem C6_counterexample_zero_granularity : generation_diverges dbMonSmall 1 0 0 := by
  intro fuel
  have hsched : scheduleFor dbMonSmall 1 (weekdayOfDay 0) = some monSchedSmall := rfl
  have hloop : slotsLoop fuel ((0 : Int) * 1440 + monSchedSmall.start_time)
      ((0 : Int) * 1440 + monSchedSmall.end_time) 0 = none := by
    have h := slotsLoop_zero_duration ((0 : Int) * 1440 + monSchedSmall.end_time) fuel
      ((0 : Int) * 1440 + monSchedSmall.start_time) (by decide)
    exact h
  simp only [get_available_slots, hsched, hloop]

/-- C6 (amended): for every provider and date, listing returns the empty
sequence when the working-hours row for the weekday is absent or not
working; for every granularity `g ≥ 1` the generation loop returns exactly
the grid `start, start+g, start+2g, …` of slots `s` with `s + g ≤ end`; and
for working hours Monday 09:00–17:00 with granularity 30 and no
reservations the listing is exactly the 16 slots 09:00, 09:30, …, 16:30. -/
theorem C6_slot_generation_amended :
    (∀ (fuel : Nat) (db : DB) (master_id check_date slot_duration : Int),
      scheduleFor db master_id (weekdayOfDay check_date) = none →
      get_available_slots fuel db master_id check_date slot_duration = some []) ∧
    (∀ (fuel : Nat) (current end_time g : Int), 1 ≤ g →
      (end_time - current).toNat < fuel →
      ∃ l, slotsLoop fuel current end_time g = some l ∧
        ∀ s : Int, s ∈ l ↔ ∃ k : Nat, s = current + (k : Int) * g ∧ s + g ≤ end_time) ∧
    get_available_slots 481 dbMon 1 0 30 =
      some [540, 570, 600, 630, 660, 690, 720, 750, 780, 810,
            840, 870, 900, 930, 960, 990] := by
  refine ⟨?_, ?_, by decide⟩
  · intro fuel db master_id check_date slot_duration h
    simp only [get_available_slots, h]
  · intro fuel current end_time g hg hf
    obtain ⟨l, hl, hmem, _, _⟩ := slotsLoop_pos_duration fuel current end_time g hg hf
    exact ⟨l, hl, hmem⟩

/-- C6 witness: the amended statement applied at concrete inputs — a
provider with no schedule row yields the empty listing, and the concrete
grid 09:00–17:00 with step 30 is produced with fuel 481. -/
theorem C6_amended_witness :
    get_available_slots 3 dbNoSched 1 0 30 = some [] ∧
    (∃ l, slotsLoop 481 540 1020 30 = some l ∧
      ∀ s : Int, s ∈ l ↔ ∃ k : Nat, s = 540 + (k : Int) * 30 ∧ s + 30 ≤ 1020) :=
  ⟨C6_slot_generation_amended.1 3 dbNoSched 1 0 30 rfl,
   C6_slot_generation_amended.2.1 481 540 1020 30 (by decide) (by decide)⟩

/-- C7: the availability filter keeps exactly the candidates that overlap no
reservation of the given list under the half-open test
`s < r.start + r.duration ∧ s + g > r.start`, and its output is a
subsequence of the candidate sequence, hence preserves the input order. -/
theorem C7_availability_filter_spec :
    ∀ (candidates : List Int) (bookings : List Booking) (slot_duration : Int),
      List.Sublist (filter_available_slots candidates bookings slot_duration) candidates ∧
      ∀ s : Int, s ∈ candidates →
        (s ∈ filter_available_slots candidates bookings slot_duration ↔
          ∀ b ∈ bookings,
            ¬(s < b.booking_date + b.duration_minutes ∧
              s + slot_duration > b.booking_date)) := by
  intro candidates bookings slot_duration
  refine ⟨List.filter_sublist _, ?_⟩
  intro s hs
  simp only [filter_available_slots, List.mem_filter, hs, true_and,
    Bool.not_eq_true', List.any_eq_false, Bool.and_eq_true, decide_eq_true_eq,
    not_and]

/-- C7 witness: with candidates 10:00 and 10:30 and one confirmed
reservation 10:00–10:30, the filter keeps 10:30 (no overlap) and its output
is a subsequence of the input. -/
theorem C7_witness :
    (630 : Int) ∈ filter_available_slots [600, 630] [bkW] 30 ∧
    List.Sublist (filter_available_slots [600, 630] [bkW] 30) [600, 630] :=
  ⟨((C7_availability_filter_spec [600, 630] [bkW] 30).2 630 (by decide)).mpr
      (by decide),
   (C7_availability_filter_spec [600, 630] [bkW] 30).1⟩

/-- C8 counterexample: with granularity 0 and working hours 09:00–17:00 the
slot-generation loop never terminates — it returns no result however much
fuel it is given — refuting termination for every granularity value. -/
theorem C8_counterexample_nontermination : slots_loop_diverges 540 1020 0 :=
  fun fuel => slotsLoop_zero_duration 1020 fuel 540 (by decide)

/-- C8 (amended): for every granularity `g ≥ 1` slot generation terminates
(with fuel beyond the interval length it returns a result), the produced
sequence is finite and strictly increasing, and it is a pure function of its
inputs (the model is a function, so identical inputs give identical
sequences); for `g ≤ 0` with at least one fitting slot the loop diverges. -/
theorem C8_generation_terminates_for_positive_granularity :
    ∀ (current end_time g : Int) (fuel : Nat), 1 ≤ g →
      (end_time - current).toNat < fuel →
      ∃ l, slotsLoop fuel current end_time g = some l ∧
        List.Chain' (fun a b => a < b) l := by
  intro current end_time g fuel hg hf
  obtain ⟨l, hl, _, hch, _⟩ := slotsLoop_pos_duration fuel current end_time g hg hf
  exact ⟨l, hl, hch⟩

/-- C8 witness: the amended statement at the concrete grid 09:00–17:00 with
step 30 and fuel 481. -/
theorem C8_amended_witness :
    ∃ l, slotsLoop 500 540 1020 30 = some l ∧ List.Chain' (fun a b => a < b) l :=
  C8_generation_terminates_for_positive_granularity 540 1020 30 500 (by decide)
    (by decide)

/-- C9: the bookings consulted by the listing are exactly day-scoped — every
consulted booking starts within `[00:00, 24:00)` of the queried day — and
concretely the confirmed reservation starting Monday 23:30 (covering
`[23:30, 00:30)` into Tuesday) is not consulted when listing Tuesday, so the
Tuesday 00:00 slot is still listed even though it overlaps that
reservation. -/
theorem C9_day_scoped_booking_filter :
    (∀ (db : DB) (master_id check_date : Int) (b : Booking),
      b ∈ bookings_for_day db master_id check_date →
        check_date * 1440 ≤ b.booking_date ∧
        b.booking_date ≤ check_date * 1440 + 1439) ∧
    bookings_for_day dbCross 1 1 = [] ∧
    (1440 < crossBk.booking_date + crossBk.duration_minutes ∧
      (1440 : Int) + 30 > crossBk.booking_date) ∧
    get_available_slots 100 dbCross 1 1 30 = some [0, 30] := by
  refine ⟨?_, by decide, by decide, by decide⟩
  intro db master_id check_date b hb
  simp only [bookings_for_day, List.mem_filter, Bool.and_eq_true,
    decide_eq_true_eq] at hb
  exact ⟨by tauto, by tauto⟩

/-- C9 witness: the day-scoping bound applied to a concrete booking that is
consulted — the pending Tuesday 00:00 booking of `dbCrossW`. -/
theorem C9_witness :
    (1 : Int) * 1440 ≤ tueBk.booking_date ∧
    tueBk.booking_date ≤ (1 : Int) * 1440 + 1439 :=
  C9_day_scoped_booking_filter.1 dbCrossW 1 1 tueBk (by decide)

/-- C10: the booking row constructed by the reserve path copies its
`duration_minutes` and its `price` from the `Service` row and is created in
the Confirmed status; the request (which carries no duration and no price
field) cannot influence them. -/
theorem C10_duration_and_price_come_from_service :
    ∀ (tenant : Tenant) (client_id : Int) (data : CreateBookingRequest)
      (service : Service) (new_booking_id : Int),
      (mkBooking tenant client_id data service new_booking_id).duration_minutes =
        service.duration_minutes ∧
      (mkBooking tenant client_id data service new_booking_id).price = service.price ∧
      (mkBooking tenant client_id data service new_booking_id).status =
        BookingStatus.confirmed :=
  fun _ _ _ _ _ => ⟨rfl, rfl, rfl⟩
